import Mathlib

/-!
# Verification of the Snake game tick engine (`src/script.js`)

`src/script.js` contains two self-contained Snake implementations (two IIFEs):

* **V1** (lines 1-308): grid fixed at 30×30, snake stored head-first
  (`snake[0]` is the head), `placeFood` enumerates the free cells and picks one
  at a random index, `tick` guards on `gameOver`.
* **V2** (lines 308-776): grid `cols`×`rows` (set from the canvas size), snake
  stored head-last (`snake[snake.length-1]` is the head), `spawnFood` does
  rejection sampling bounded by 10000 tries, `update` ramps `tickInterval`
  every 5 points down to a floor of 45, the keydown listener guards on
  `isGameOver`.

Randomness (`Math.random()`) is modelled by explicit oracles: an arbitrary
index `r : Nat` for V1's `placeFood`, and an arbitrary stream of candidate
cells `picks : Nat → Cell` for V2's `spawnFood`.
-/

/-- A grid cell `{x, y}` with integer coordinates. -/
structure Cell where
  x : Int
  y : Int
deriving DecidableEq, Repr, Inhabited

namespace V1

/-- `const GRID_SIZE = 30` (script.js line 16). -/
def GRID_SIZE : Int := 30

/-- `const TICK_MS = 100` (script.js line 19): the (constant) tick interval. -/
def TICK_MS : Nat := 100

/-- Game state of the first implementation: module-level variables
`snake` (head at index 0), `dir`, `nextDir`, `food`, `score`, `gameOver`. -/
structure GState where
  snake : List Cell
  dir : Cell
  nextDir : Cell
  food : Option Cell
  score : Nat
  gameOver : Bool
deriving DecidableEq, Repr

/-- `isOpposite(a, b)` (script.js line 236): `a.x === -b.x && a.y === -b.y`. -/
def isOpposite (a b : Cell) : Bool :=
  a.x == -b.x && a.y == -b.y

/-- All cells of the 30×30 grid in the iteration order of `placeFood`
(outer loop on `x`, inner loop on `y`). -/
def allCells : List Cell :=
  (List.range 30).flatMap fun x => (List.range 30).map fun y => ⟨x, y⟩

/-- The `freeCells` array built by `placeFood` (script.js lines 69-75):
every grid cell not occupied by the snake, in iteration order. -/
def freeCells (snake : List Cell) : List Cell :=
  allCells.filter fun c => decide (c ∉ snake)

/-- `placeFood()` (script.js lines 68-81): `null` when no free cell exists,
otherwise the free cell at the random index
`Math.floor(Math.random() * freeCells.length)`; the random draw is modelled
by the oracle `r`, reduced mod the list length so every index is reachable. -/
def placeFood (r : Nat) (snake : List Cell) : Option Cell :=
  let free := freeCells snake
  free[r % free.length]?

/-- Direction resolution at the top of `tick` (script.js lines 87-89): adopt
`nextDir` unless it is the exact opposite of `dir`. -/
def resolvedDir (s : GState) : Cell :=
  if isOpposite s.nextDir s.dir then s.dir else s.nextDir

/-- The new head cell computed by `tick` (script.js lines 91-93):
current head moved one cell in the resolved direction. -/
def newHead (s : GState) : Cell :=
  ⟨s.snake.headI.x + (resolvedDir s).x, s.snake.headI.y + (resolvedDir s).y⟩

/-- The wall-collision condition of `tick` (script.js line 96):
`head.x < 0 || head.x >= GRID_SIZE || head.y < 0 || head.y >= GRID_SIZE`. -/
def hitsWall (s : GState) : Prop :=
  (newHead s).x < 0 ∨ GRID_SIZE ≤ (newHead s).x ∨
  (newHead s).y < 0 ∨ GRID_SIZE ≤ (newHead s).y

instance (s : GState) : Decidable (hitsWall s) := by
  unfold hitsWall; infer_instance

/-- `tick()` (script.js lines 84-122). The `snake = []` case never occurs in
the script (the snake always has ≥ 1 cell after `resetGame`); it is mapped to
a no-op here and theorems carry a nonemptiness hypothesis. -/
def tick (r : Nat) (s : GState) : GState :=
  if s.gameOver then s
  else if s.snake = [] then s
  else if hitsWall s then
    { s with dir := resolvedDir s, gameOver := true }
  else if newHead s ∈ s.snake then
    { s with dir := resolvedDir s, gameOver := true }
  else
    let snake1 := newHead s :: s.snake
    match s.food with
    | some f =>
        if newHead s = f then
          { s with dir := resolvedDir s, snake := snake1,
                   food := placeFood r snake1, score := s.score + 1 }
        else
          { s with dir := resolvedDir s, snake := snake1.dropLast }
    | none => { s with dir := resolvedDir s, snake := snake1.dropLast }

/-- The initial snake of `resetGame()` (script.js lines 52-58):
`mid = floor(30 / 2) = 15`, four cells head-first. -/
def initSnake : List Cell :=
  [⟨16, 15⟩, ⟨15, 15⟩, ⟨14, 15⟩, ⟨13, 15⟩]

/-- `resetGame()` (script.js lines 44-65), state fields only. -/
def resetGame (r : Nat) : GState :=
  { snake := initSnake
    dir := ⟨1, 0⟩
    nextDir := ⟨1, 0⟩
    food := placeFood r initSnake
    score := 0
    gameOver := false }

/-- The four unit direction vectors produced by `onKeyDown`
(script.js lines 244-247). -/
def unitDirs : List Cell :=
  [⟨0, -1⟩, ⟨0, 1⟩, ⟨-1, 0⟩, ⟨1, 0⟩]

/-- `onKeyDown` (script.js lines 241-256), restricted to its state effect:
queue `nd` as `nextDir` unless it is the exact opposite of `dir`. -/
def onKeyDown (nd : Cell) (s : GState) : GState :=
  if isOpposite nd s.dir then s else { s with nextDir := nd }

/-- States reachable in the first implementation: a fresh `resetGame` state,
closed under game ticks and key presses (key presses only with one of the four
unit directions, as produced by `onKeyDown`). -/
inductive Reachable : GState → Prop
  | reset (r : Nat) : Reachable (resetGame r)
  | step (r : Nat) {s : GState} : Reachable s → Reachable (tick r s)
  | key (nd : Cell) {s : GState} : nd ∈ unitDirs → Reachable s →
      Reachable (onKeyDown nd s)

/-- `true` iff the tick starting from `s` eats the food: the new head lands
exactly on the food cell (script.js line 111). -/
def eatsFood (s : GState) : Bool :=
  match s.food with
  | some f => newHead s == f
  | none => false

/-- V1's tick interval as a function of the score: the scheduler is only
ever armed with the constant `TICK_MS` (`setInterval(tick, TICK_MS)`,
script.js lines 19 and 268); no code path of the first implementation
reassigns the interval, whatever the score. -/
def tickIntervalOf (_score : Nat) : Nat := TICK_MS

end V1

namespace V2

/-- `const BASE_SPEED = 120` (script.js line 336): initial ms per tick. -/
def BASE_SPEED : Nat := 120

/-- `const INITIAL_LENGTH = 4` (script.js line 337). -/
def INITIAL_LENGTH : Nat := 4

/-- Game state of the second implementation: `snake` (head at the LAST
index), `direction`, `nextDirection`, `food`, `score`, `tickInterval`,
`isGameOver`. The grid dimensions `cols`/`rows` are set by `fitCanvas` from
the window size; they are passed as parameters here. -/
structure G2 where
  snake : List Cell
  direction : Cell
  nextDirection : Cell
  food : Option Cell
  score : Nat
  tickInterval : Nat
  isGameOver : Bool
deriving DecidableEq, Repr

/-- One iteration step of `spawnFood`'s bounded rejection loop
(script.js lines 422-431): try `picks i`, `picks (i+1)`, … while the
candidate is occupied, giving up (returning `none`) when the try budget is
exhausted. -/
def spawnFoodAux (picks : Nat → Cell) (occupied : List Cell) :
    Nat → Nat → Option Cell
  | _, 0 => none
  | i, fuel + 1 =>
      if picks i ∈ occupied then spawnFoodAux picks occupied (i + 1) fuel
      else some (picks i)

/-- `spawnFood()` (script.js lines 420-434): up to 10000 random candidate
cells (the stream `picks` models the successive
`Math.floor(Math.random() * cols/rows)` draws); the first unoccupied one
becomes the food, and after 10000 occupied draws the fallback sets
`food = null`. -/
def spawnFood (picks : Nat → Cell) (snake : List Cell) : Option Cell :=
  spawnFoodAux picks snake 0 10000

/-- The speed-ramp assignment inside `update` (script.js lines 617-619),
applied right after `score` has been incremented to `newScore`:
`if (score % 5 === 0 && tickInterval > 45) tickInterval = max(45, tickInterval - 8)`. -/
def speedStep (newScore t : Nat) : Nat :=
  if newScore % 5 = 0 ∧ 45 < t then max 45 (t - 8) else t

/-- The tick interval as a function of the score alone: `BASE_SPEED` at
score 0, with the code's ramp rule applied at each score increment. -/
def speedOf : Nat → Nat
  | 0 => BASE_SPEED
  | n + 1 => speedStep (n + 1) (speedOf n)

/-- Direction resolution at the top of `update` (script.js lines 585-587). -/
def resolvedDir2 (s : G2) : Cell :=
  if s.nextDirection.x = -s.direction.x ∧ s.nextDirection.y = -s.direction.y
  then s.direction else s.nextDirection

/-- The new head computed by `update` (script.js lines 589-590): the last
snake element moved one cell in the resolved direction. -/
def newHead2 (s : G2) : Cell :=
  ⟨s.snake.getLastI.x + (resolvedDir2 s).x,
   s.snake.getLastI.y + (resolvedDir2 s).y⟩

/-- The wall-collision condition of `update` (script.js line 593). -/
def hitsWall2 (cols rows : Int) (s : G2) : Prop :=
  (newHead2 s).x < 0 ∨ cols ≤ (newHead2 s).x ∨
  (newHead2 s).y < 0 ∨ rows ≤ (newHead2 s).y

instance (cols rows : Int) (s : G2) : Decidable (hitsWall2 cols rows s) := by
  unfold hitsWall2; infer_instance

/-- `update()` (script.js lines 583-624). `gameOver()` (lines 630-638) sets
`isGameOver = true` and leaves snake/food/score/interval alone. As in V1, an
empty snake never occurs and is mapped to a no-op. -/
def update (cols rows : Int) (picks : Nat → Cell) (s : G2) : G2 :=
  if s.snake = [] then s
  else if hitsWall2 cols rows s then
    { s with direction := resolvedDir2 s, isGameOver := true }
  else if newHead2 s ∈ s.snake then
    { s with direction := resolvedDir2 s, isGameOver := true }
  else
    let snake1 := s.snake ++ [newHead2 s]
    match s.food with
    | some f =>
        if newHead2 s = f then
          { s with direction := resolvedDir2 s, snake := snake1,
                   food := spawnFood picks snake1, score := s.score + 1,
                   tickInterval := speedStep (s.score + 1) s.tickInterval }
        else
          { s with direction := resolvedDir2 s, snake := snake1.tail }
    | none => { s with direction := resolvedDir2 s, snake := snake1.tail }

/-- The initial snake of V2's `resetGame()` (script.js lines 401-405):
for `i = INITIAL_LENGTH-1 … 0`, push `{centerX - i, centerY}`; head last. -/
def initSnake2 (cols rows : Int) : List Cell :=
  [⟨cols / 2 - 3, rows / 2⟩, ⟨cols / 2 - 2, rows / 2⟩,
   ⟨cols / 2 - 1, rows / 2⟩, ⟨cols / 2, rows / 2⟩]

/-- V2's `resetGame()` (script.js lines 398-417), state fields only. -/
def resetGame (cols rows : Int) (picks : Nat → Cell) : G2 :=
  { snake := initSnake2 cols rows
    direction := ⟨1, 0⟩
    nextDirection := ⟨1, 0⟩
    food := spawnFood picks (initSnake2 cols rows)
    score := 0
    tickInterval := BASE_SPEED
    isGameOver := false }

/-- V2's keydown listener (script.js lines 711-734), restricted to its state
effect for an arrow key mapping to direction `nd`: ignored entirely while
`isGameOver`, and ignored when `nd` is the exact opposite of the current
direction; otherwise it becomes `nextDirection`. -/
def keydown (nd : Cell) (s : G2) : G2 :=
  if s.isGameOver then s
  else if nd.x = -s.direction.x ∧ nd.y = -s.direction.y then s
  else { s with nextDirection := nd }

/-- `restart()` (script.js lines 694-705): clears flags and calls
`resetGame`, so the resulting state is exactly a fresh reset state. -/
def restart (cols rows : Int) (picks : Nat → Cell) : G2 :=
  resetGame cols rows picks

/-- States reachable in the second implementation: a fresh `resetGame`
state, closed under `update` ticks and keydown events (arrow keys only).
`cols`, `rows` and the random streams may vary between steps (the window can
be resized mid-game). -/
inductive Reachable2 : G2 → Prop
  | reset (cols rows : Int) (picks : Nat → Cell) :
      Reachable2 (resetGame cols rows picks)
  | step (cols rows : Int) (picks : Nat → Cell) {s : G2} :
      Reachable2 s → Reachable2 (update cols rows picks s)
  | key (nd : Cell) {s : G2} : nd ∈ V1.unitDirs → Reachable2 s →
      Reachable2 (keydown nd s)

end V2

/-- The concrete scenario of spec §8, for the V2 engine on a 10×10 grid:
snake `[(5,5),(4,5),(3,5),(2,5)]` head-first (stored head-last in V2),
moving right with no pending change, food at `(6,5)`, score 0. -/
def scenarioState : V2.G2 :=
  { snake := [⟨2, 5⟩, ⟨3, 5⟩, ⟨4, 5⟩, ⟨5, 5⟩]
    direction := ⟨1, 0⟩
    nextDirection := ⟨1, 0⟩
    food := some ⟨6, 5⟩
    score := 0
    tickInterval := V2.BASE_SPEED
    isGameOver := false }

/-! Concrete V1 states used to instantiate the theorems below. -/

/-- A V1 state about to run head-first into its own body:
head `(5,5)` moving down into `(5,6)`, which the body occupies. -/
def selfHitState : V1.GState :=
  { snake := [⟨5, 5⟩, ⟨6, 5⟩, ⟨6, 6⟩, ⟨5, 6⟩]
    dir := ⟨0, 1⟩
    nextDir := ⟨0, 1⟩
    food := none
    score := 0
    gameOver := false }

/-- A V1 state performing a plain move (no food on the board). -/
def moveState : V1.GState :=
  { snake := [⟨5, 5⟩, ⟨4, 5⟩]
    dir := ⟨1, 0⟩
    nextDir := ⟨1, 0⟩
    food := none
    score := 0
    gameOver := false }

/-- A V1 state whose head sits on the right edge moving right: the next
tick hits the wall. -/
def wallState : V1.GState :=
  { snake := [⟨29, 15⟩, ⟨28, 15⟩]
    dir := ⟨1, 0⟩
    nextDir := ⟨1, 0⟩
    food := none
    score := 0
    gameOver := false }

/-- A V1 state on the right edge moving right with the exact opposite
direction queued: the reversal is discarded and the tick hits the wall. -/
def reverseState : V1.GState :=
  { snake := [⟨29, 15⟩, ⟨28, 15⟩, ⟨27, 15⟩, ⟨26, 15⟩]
    dir := ⟨1, 0⟩
    nextDir := ⟨-1, 0⟩
    food := none
    score := 0
    gameOver := false }

/-- A V1 state in mid-board moving right with the exact opposite direction
queued: the reversal is discarded and the snake moves right normally. -/
def reverseMoveState : V1.GState :=
  { snake := [⟨5, 5⟩, ⟨4, 5⟩]
    dir := ⟨1, 0⟩
    nextDir := ⟨-1, 0⟩
    food := none
    score := 0
    gameOver := false }

/-- A V1 state whose head is about to enter the cell currently holding the
tail (a 2×2 loop). -/
def tailChaseState : V1.GState :=
  { snake := [⟨0, 0⟩, ⟨1, 0⟩, ⟨1, 1⟩, ⟨0, 1⟩]
    dir := ⟨0, 1⟩
    nextDir := ⟨0, 1⟩
    food := none
    score := 0
    gameOver := false }

/-- The concrete scenario of spec §8 for the V1 engine: snake
`[(5,5),(4,5),(3,5),(2,5)]` moving right, food at `(6,5)`. -/
def eatState : V1.GState :=
  { snake := [⟨5, 5⟩, ⟨4, 5⟩, ⟨3, 5⟩, ⟨2, 5⟩]
    dir := ⟨1, 0⟩
    nextDir := ⟨1, 0⟩
    food := some ⟨6, 5⟩
    score := 0
    gameOver := false }

/-- A V1 terminal (game-over) state. -/
def doneState : V1.GState :=
  { snake := [⟨5, 5⟩, ⟨4, 5⟩]
    dir := ⟨1, 0⟩
    nextDir := ⟨1, 0⟩
    food := none
    score := 7
    gameOver := true }

/-- A V2 terminal (game-over) state. -/
def doneState2 : V2.G2 :=
  { snake := [⟨2, 5⟩, ⟨3, 5⟩]
    direction := ⟨1, 0⟩
    nextDirection := ⟨1, 0⟩
    food := none
    score := 3
    tickInterval := 112
    isGameOver := true }

/-! ## Helper lemmas: V1 `placeFood` -/

theorem v1_mem_freeCells {snake : List Cell} {c : Cell} :
    c ∈ V1.freeCells snake ↔ c ∈ V1.allCells ∧ c ∉ snake := by
  simp [V1.freeCells]

theorem v1_placeFood_eq_none_iff (r : Nat) (snake : List Cell) :
    V1.placeFood r snake = none ↔ V1.freeCells snake = [] := by
  unfold V1.placeFood
  rcases eq_or_ne (V1.freeCells snake) [] with h | h
  · simp [h]
  · have hlen : 0 < (V1.freeCells snake).length := List.length_pos.mpr h
    have hmod := Nat.mod_lt r hlen
    simp [List.getElem?_eq_getElem hmod, h]

theorem v1_placeFood_mem {r : Nat} {snake : List Cell} {c : Cell}
    (h : V1.placeFood r snake = some c) : c ∈ V1.freeCells snake := by
  unfold V1.placeFood at h
  exact List.getElem?_mem h

theorem v1_placeFood_not_mem {r : Nat} {snake : List Cell} {c : Cell}
    (h : V1.placeFood r snake = some c) : c ∉ snake :=
  (v1_mem_freeCells.mp (v1_placeFood_mem h)).2

theorem v1_exists_placeFood {snake : List Cell} {c : Cell}
    (h : c ∈ V1.freeCells snake) : ∃ r, V1.placeFood r snake = some c := by
  obtain ⟨i, hi, hget⟩ := List.mem_iff_getElem.mp h
  refine ⟨i, ?_⟩
  simp [V1.placeFood, Nat.mod_eq_of_lt hi, List.getElem?_eq_getElem hi, hget]

/-! ## Helper lemmas: V1 `tick` case analysis -/

theorem v1_tick_gameOver (r : Nat) {s : V1.GState} (h : s.gameOver = true) :
    V1.tick r s = s := by
  simp [V1.tick, h]

theorem v1_tick_wall (r : Nat) {s : V1.GState} (hgo : s.gameOver = false)
    (hne : s.snake ≠ []) (hw : V1.hitsWall s) :
    V1.tick r s = { s with dir := V1.resolvedDir s, gameOver := true } := by
  simp [V1.tick, hgo, hne, hw]

theorem v1_tick_self (r : Nat) {s : V1.GState} (hgo : s.gameOver = false)
    (hne : s.snake ≠ []) (hw : ¬ V1.hitsWall s)
    (hself : V1.newHead s ∈ s.snake) :
    V1.tick r s = { s with dir := V1.resolvedDir s, gameOver := true } := by
  simp [V1.tick, hgo, hne, hw, hself]

theorem v1_tick_eat (r : Nat) {s : V1.GState} {f : Cell}
    (hgo : s.gameOver = false) (hne : s.snake ≠ []) (hw : ¬ V1.hitsWall s)
    (hself : V1.newHead s ∉ s.snake) (hf : s.food = some f)
    (heq : V1.newHead s = f) :
    V1.tick r s =
      { s with
          dir := V1.resolvedDir s
          snake := V1.newHead s :: s.snake
          food := V1.placeFood r (V1.newHead s :: s.snake)
          score := s.score + 1 } := by
  simp [V1.tick, hgo, hne, hw, hself, hf, heq]
  exact heq ▸ hself

theorem v1_tick_move (r : Nat) {s : V1.GState} (hgo : s.gameOver = false)
    (hne : s.snake ≠ []) (hw : ¬ V1.hitsWall s)
    (hself : V1.newHead s ∉ s.snake) (hate : V1.eatsFood s = false) :
    V1.tick r s =
      { s with
          dir := V1.resolvedDir s
          snake := (V1.newHead s :: s.snake).dropLast } := by
  unfold V1.eatsFood at hate
  cases hf : s.food with
  | none => simp [V1.tick, hgo, hne, hw, hself, hf]
  | some f =>
      rw [hf] at hate
      simp only [beq_eq_false_iff_ne, ne_eq] at hate
      simp [V1.tick, hgo, hne, hw, hself, hf, hate]

/-! ## Helper lemmas: V1 reachability invariants -/

theorem v1_onKeyDown_fields (nd : Cell) (s : V1.GState) :
    (V1.onKeyDown nd s).snake = s.snake ∧
    (V1.onKeyDown nd s).score = s.score ∧
    (V1.onKeyDown nd s).gameOver = s.gameOver ∧
    (V1.onKeyDown nd s).food = s.food ∧
    (V1.onKeyDown nd s).dir = s.dir := by
  unfold V1.onKeyDown
  split <;> simp

theorem v1_tick_empty (r : Nat) {s : V1.GState} (hne : s.snake = []) :
    V1.tick r s = s := by
  by_cases hgo : s.gameOver = true
  · exact v1_tick_gameOver r hgo
  · simp [V1.tick, hne]

/-- The self-collision invariant: the snake of a reachable state never
contains a duplicate cell. -/
theorem v1_reachable_nodup {s : V1.GState} (h : V1.Reachable s) :
    s.snake.Nodup := by
  induction h with
  | reset r => show V1.initSnake.Nodup; decide
  | step r hr ih =>
      rename_i s
      by_cases hgo : s.gameOver = true
      · rw [v1_tick_gameOver r hgo]; exact ih
      have hgo0 : s.gameOver = false := by simpa using hgo
      by_cases hne : s.snake = []
      · rw [v1_tick_empty r hne]; exact ih
      by_cases hw : V1.hitsWall s
      · rw [v1_tick_wall r hgo0 hne hw]; exact ih
      by_cases hself : V1.newHead s ∈ s.snake
      · rw [v1_tick_self r hgo0 hne hw hself]; exact ih
      by_cases hate : V1.eatsFood s = true
      · unfold V1.eatsFood at hate
        cases hf : s.food with
        | none => rw [hf] at hate; cases hate
        | some f =>
            rw [hf] at hate
            have heq : V1.newHead s = f := by simpa using hate
            rw [v1_tick_eat r hgo0 hne hw hself hf heq]
            exact List.nodup_cons.mpr ⟨hself, ih⟩
      · have hate0 : V1.eatsFood s = false := by simpa using hate
        rw [v1_tick_move r hgo0 hne hw hself hate0]
        exact List.Nodup.sublist (List.dropLast_sublist _)
          (List.nodup_cons.mpr ⟨hself, ih⟩)
  | key nd hnd hr ih =>
      rename_i s
      rw [(v1_onKeyDown_fields nd s).1]; exact ih

/-- The length accounting invariant: while the game is not over, the snake
has exactly `4 + score` cells. -/
theorem v1_reachable_length {s : V1.GState} (h : V1.Reachable s) :
    s.gameOver = false → s.snake.length = 4 + s.score := by
  induction h with
  | reset r => intro _; rfl
  | step r hr ih =>
      rename_i s
      intro hgo'
      by_cases hgo : s.gameOver = true
      · rw [v1_tick_gameOver r hgo] at hgo'
        rw [hgo] at hgo'; cases hgo'
      have hgo0 : s.gameOver = false := by simpa using hgo
      have hlen := ih hgo0
      have hne : s.snake ≠ [] := by
        intro hnil; rw [hnil] at hlen; simp at hlen; omega
      by_cases hw : V1.hitsWall s
      · rw [v1_tick_wall r hgo0 hne hw] at hgo'; simp at hgo'
      by_cases hself : V1.newHead s ∈ s.snake
      · rw [v1_tick_self r hgo0 hne hw hself] at hgo'; simp at hgo'
      by_cases hate : V1.eatsFood s = true
      · unfold V1.eatsFood at hate
        cases hf : s.food with
        | none => rw [hf] at hate; cases hate
        | some f =>
            rw [hf] at hate
            have heq : V1.newHead s = f := by simpa using hate
            rw [v1_tick_eat r hgo0 hne hw hself hf heq]
            simp only [List.length_cons, hlen]
            omega
      · have hate0 : V1.eatsFood s = false := by simpa using hate
        rw [v1_tick_move r hgo0 hne hw hself hate0]
        simp only [List.dropLast_cons_of_ne_nil hne, List.length_dropLast,
          List.length_cons]
        omega
  | key nd hnd hr ih =>
      rename_i s
      intro hgo'
      rw [(v1_onKeyDown_fields nd s).2.2.1] at hgo'
      rw [(v1_onKeyDown_fields nd s).1, (v1_onKeyDown_fields nd s).2.1]
      exact ih hgo'

/-! ## Helper lemmas: V2 `spawnFood` -/

theorem v2_spawnFoodAux_not_mem {picks : Nat → Cell} {occupied : List Cell}
    {c : Cell} :
    ∀ i fuel, V2.spawnFoodAux picks occupied i fuel = some c → c ∉ occupied := by
  intro i fuel
  induction fuel generalizing i with
  | zero => intro h; cases h
  | succ fuel ih =>
      intro h
      unfold V2.spawnFoodAux at h
      by_cases hm : picks i ∈ occupied
      · rw [if_pos hm] at h; exact ih (i + 1) h
      · rw [if_neg hm] at h
        cases h
        exact hm

theorem v2_spawnFood_not_mem {picks : Nat → Cell} {snake : List Cell}
    {c : Cell} (h : V2.spawnFood picks snake = some c) : c ∉ snake :=
  v2_spawnFoodAux_not_mem 0 10000 h

theorem v2_spawnFoodAux_none_of_all_occupied {picks : Nat → Cell}
    {occupied : List Cell} (hall : ∀ j, picks j ∈ occupied) :
    ∀ i fuel, V2.spawnFoodAux picks occupied i fuel = none := by
  intro i fuel
  induction fuel generalizing i with
  | zero => rfl
  | succ fuel ih =>
      unfold V2.spawnFoodAux
      rw [if_pos (hall i)]
      exact ih (i + 1)

/-- If every random draw happens to hit an occupied cell, `spawnFood` gives
up and leaves the food absent, regardless of how many cells are free. -/
theorem v2_spawnFood_none_of_all_occupied {picks : Nat → Cell}
    {snake : List Cell} (hall : ∀ j, picks j ∈ snake) :
    V2.spawnFood picks snake = none :=
  v2_spawnFoodAux_none_of_all_occupied hall 0 10000

/-! ## Helper lemmas: V2 `update` case analysis -/

theorem v2_update_wall (cols rows : Int) (picks : Nat → Cell) {s : V2.G2}
    (hne : s.snake ≠ []) (hw : V2.hitsWall2 cols rows s) :
    V2.update cols rows picks s =
      { s with direction := V2.resolvedDir2 s, isGameOver := true } := by
  simp [V2.update, hne, hw]

theorem v2_update_self (cols rows : Int) (picks : Nat → Cell) {s : V2.G2}
    (hne : s.snake ≠ []) (hw : ¬ V2.hitsWall2 cols rows s)
    (hself : V2.newHead2 s ∈ s.snake) :
    V2.update cols rows picks s =
      { s with direction := V2.resolvedDir2 s, isGameOver := true } := by
  simp [V2.update, hne, hw, hself]

theorem v2_update_eat (cols rows : Int) (picks : Nat → Cell) {s : V2.G2}
    {f : Cell} (hne : s.snake ≠ []) (hw : ¬ V2.hitsWall2 cols rows s)
    (hself : V2.newHead2 s ∉ s.snake) (hf : s.food = some f)
    (heq : V2.newHead2 s = f) :
    V2.update cols rows picks s =
      { s with
          direction := V2.resolvedDir2 s
          snake := s.snake ++ [V2.newHead2 s]
          food := V2.spawnFood picks (s.snake ++ [V2.newHead2 s])
          score := s.score + 1
          tickInterval := V2.speedStep (s.score + 1) s.tickInterval } := by
  simp [V2.update, hne, hw, hself, hf, heq]
  exact heq ▸ hself

theorem v2_update_move (cols rows : Int) (picks : Nat → Cell) {s : V2.G2}
    (hne : s.snake ≠ []) (hw : ¬ V2.hitsWall2 cols rows s)
    (hself : V2.newHead2 s ∉ s.snake)
    (hate : ∀ f, s.food = some f → V2.newHead2 s ≠ f) :
    V2.update cols rows picks s =
      { s with
          direction := V2.resolvedDir2 s
          snake := (s.snake ++ [V2.newHead2 s]).tail } := by
  cases hf : s.food with
  | none => simp [V2.update, hne, hw, hself, hf]
  | some f => simp [V2.update, hne, hw, hself, hf, hate f hf]

theorem v2_keydown_fields (nd : Cell) (s : V2.G2) :
    (V2.keydown nd s).snake = s.snake ∧
    (V2.keydown nd s).score = s.score ∧
    (V2.keydown nd s).tickInterval = s.tickInterval ∧
    (V2.keydown nd s).isGameOver = s.isGameOver ∧
    (V2.keydown nd s).food = s.food ∧
    (V2.keydown nd s).direction = s.direction := by
  unfold V2.keydown
  split
  · simp
  · split <;> simp

/-! ## Helper lemmas: V2 speed ramp -/

theorem v2_speedStep_le (n t : Nat) : V2.speedStep n t ≤ t := by
  unfold V2.speedStep
  split
  · next h => omega
  · exact Nat.le_refl t

theorem v2_speedOf_le_succ (n : Nat) : V2.speedOf (n + 1) ≤ V2.speedOf n :=
  v2_speedStep_le (n + 1) (V2.speedOf n)

theorem v2_speedOf_antitone {a b : Nat} (h : a ≤ b) :
    V2.speedOf b ≤ V2.speedOf a := by
  induction b with
  | zero => cases Nat.le_zero.mp h; exact Nat.le_refl _
  | succ b ih =>
      rcases Nat.lt_or_ge a (b + 1) with hlt | hge
      · exact Nat.le_trans (v2_speedOf_le_succ b) (ih (Nat.lt_succ_iff.mp hlt))
      · have : a = b + 1 := Nat.le_antisymm h hge
        rw [this]

theorem v2_speedOf_floor (n : Nat) : 45 ≤ V2.speedOf n := by
  induction n with
  | zero => decide
  | succ n ih =>
      show 45 ≤ V2.speedStep (n + 1) (V2.speedOf n)
      unfold V2.speedStep
      split
      · omega
      · exact ih

/-- The tick interval of any reachable V2 state is determined by the score
alone, through the ramp function `speedOf`. -/
theorem v2_reachable_interval {s : V2.G2} (h : V2.Reachable2 s) :
    s.tickInterval = V2.speedOf s.score := by
  induction h with
  | reset cols rows picks => rfl
  | step cols rows picks hr ih =>
      rename_i s
      by_cases hne : s.snake = []
      · simp [V2.update, hne]; exact ih
      by_cases hw : V2.hitsWall2 cols rows s
      · rw [v2_update_wall cols rows picks hne hw]; exact ih
      by_cases hself : V2.newHead2 s ∈ s.snake
      · rw [v2_update_self cols rows picks hne hw hself]; exact ih
      by_cases hate : ∃ f, s.food = some f ∧ V2.newHead2 s = f
      · obtain ⟨f, hf, heq⟩ := hate
        rw [v2_update_eat cols rows picks hne hw hself hf heq]
        show V2.speedStep (s.score + 1) s.tickInterval = V2.speedOf (s.score + 1)
        rw [ih]
        rfl
      · push_neg at hate
        rw [v2_update_move cols rows picks hne hw hself hate]
        exact ih
  | key nd hnd hr ih =>
      rename_i s
      rw [(v2_keydown_fields nd s).2.2.1, (v2_keydown_fields nd s).2.1]
      exact ih

/-! ## Claims -/

/-- C1: For every reachable game state, no two cells in the snake sequence
are identical; and on any tick whose move would duplicate a cell (the new
head coincides with a cell of the current body), `tick` transitions to the
terminal state instead of committing the move (the snake is unchanged). -/
theorem C1_no_duplicate_cells :
    (∀ s : V1.GState, V1.Reachable s → s.snake.Nodup) ∧
    (∀ (r : Nat) (s : V1.GState), s.gameOver = false → s.snake ≠ [] →
      V1.newHead s ∈ s.snake →
      (V1.tick r s).gameOver = true ∧ (V1.tick r s).snake = s.snake) := by
  constructor
  · intro s h
    exact v1_reachable_nodup h
  · intro r s hgo hne hself
    by_cases hw : V1.hitsWall s
    · rw [v1_tick_wall r hgo hne hw]; exact ⟨rfl, rfl⟩
    · rw [v1_tick_self r hgo hne hw hself]; exact ⟨rfl, rfl⟩

theorem C1_witness :
    (V1.resetGame 0).snake.Nodup ∧
    ((V1.tick 0 selfHitState).gameOver = true ∧
      (V1.tick 0 selfHitState).snake = selfHitState.snake) :=
  ⟨C1_no_duplicate_cells.1 (V1.resetGame 0) (V1.Reachable.reset 0),
   C1_no_duplicate_cells.2 0 selfHitState rfl (by decide) (by decide)⟩

/-- C2: on every tick from a live state that does not reach a terminal
state, the snake length afterwards equals the prior length plus one exactly
when food was eaten on that tick, and equals the prior length otherwise. -/
theorem C2_length_after_tick (r : Nat) (s : V1.GState)
    (hgo : s.gameOver = false) (hne : s.snake ≠ [])
    (hterm : (V1.tick r s).gameOver = false) :
    (V1.eatsFood s = true →
      (V1.tick r s).snake.length = s.snake.length + 1) ∧
    (V1.eatsFood s = false →
      (V1.tick r s).snake.length = s.snake.length) := by
  by_cases hw : V1.hitsWall s
  · rw [v1_tick_wall r hgo hne hw] at hterm; simp at hterm
  by_cases hself : V1.newHead s ∈ s.snake
  · rw [v1_tick_self r hgo hne hw hself] at hterm; simp at hterm
  constructor
  · intro hate
    unfold V1.eatsFood at hate
    cases hf : s.food with
    | none => rw [hf] at hate; cases hate
    | some f =>
        rw [hf] at hate
        have heq : V1.newHead s = f := by simpa using hate
        rw [v1_tick_eat r hgo hne hw hself hf heq]
        show (V1.newHead s :: s.snake).length = s.snake.length + 1
        simp
  · intro hate
    rw [v1_tick_move r hgo hne hw hself hate]
    show ((V1.newHead s :: s.snake).dropLast).length = s.snake.length
    simp only [List.length_dropLast, List.length_cons]
    omega

theorem C2_witness :
    (moveState.gameOver = false ∧ (V1.tick 0 moveState).gameOver = false ∧
      V1.eatsFood moveState = false) ∧
    (V1.tick 0 moveState).snake.length = moveState.snake.length :=
  ⟨⟨rfl, by decide, rfl⟩,
   (C2_length_after_tick 0 moveState rfl (by decide) (by decide)).2 rfl⟩

/-- C3: whenever the new head computed by the tick lies outside the grid,
the game transitions to the terminal state and the snake body (as well as
food and score) is left exactly as it was before the tick. -/
theorem C3_wall_terminal (r : Nat) (s : V1.GState)
    (hgo : s.gameOver = false) (hne : s.snake ≠ []) (hw : V1.hitsWall s) :
    (V1.tick r s).gameOver = true ∧ (V1.tick r s).snake = s.snake ∧
    (V1.tick r s).food = s.food ∧ (V1.tick r s).score = s.score := by
  rw [v1_tick_wall r hgo hne hw]
  exact ⟨rfl, rfl, rfl, rfl⟩

theorem C3_witness :
    (V1.tick 0 wallState).gameOver = true ∧
    (V1.tick 0 wallState).snake = wallState.snake := by
  have h := C3_wall_terminal 0 wallState rfl (by decide) (by decide)
  exact ⟨h.1, h.2.1⟩

theorem v1_eatsFood_iff {s : V1.GState} :
    V1.eatsFood s = true ↔ ∃ f, s.food = some f ∧ V1.newHead s = f := by
  unfold V1.eatsFood
  cases hf : s.food <;> simp

theorem v1_tick_dir (r : Nat) {s : V1.GState} (hgo : s.gameOver = false)
    (hne : s.snake ≠ []) : (V1.tick r s).dir = V1.resolvedDir s := by
  by_cases hw : V1.hitsWall s
  · rw [v1_tick_wall r hgo hne hw]
  by_cases hself : V1.newHead s ∈ s.snake
  · rw [v1_tick_self r hgo hne hw hself]
  by_cases hate : V1.eatsFood s = true
  · obtain ⟨f, hf, heq⟩ := v1_eatsFood_iff.mp hate
    rw [v1_tick_eat r hgo hne hw hself hf heq]
  · have hate0 : V1.eatsFood s = false := by simpa using hate
    rw [v1_tick_move r hgo hne hw hself hate0]

/-- C4 counterexample: in `reverseState` the queued direction `(-1,0)` is the
exact opposite of the current direction `(1,0)`, yet after the tick the snake
has NOT moved one cell in direction `(1,0)`: the move in the retained
direction hits the right wall, so the game becomes terminal with the snake
unchanged. -/
theorem C4_counterexample :
    V1.isOpposite reverseState.nextDir reverseState.dir = true ∧
    (V1.tick 0 reverseState).gameOver = true ∧
    (V1.tick 0 reverseState).snake = reverseState.snake ∧
    ¬ (V1.tick 0 reverseState).snake =
        (⟨30, 15⟩ : Cell) :: reverseState.snake.dropLast := by
  refine ⟨by decide, by decide, by decide, by decide⟩

/-- C4 (amended): for every live state with a nonempty snake whose queued
direction is the exact opposite of the current direction `D`: the tick
discards the queued reversal (`D` remains the current direction afterwards),
the attempted new head is one cell from the old head in direction `D`, and
whenever the tick does not reach the terminal state the snake has indeed
moved one cell in direction `D`. -/
theorem C4_reversal_ignored (r : Nat) (s : V1.GState)
    (hgo : s.gameOver = false) (hne : s.snake ≠ [])
    (hopp : V1.isOpposite s.nextDir s.dir = true) :
    (V1.tick r s).dir = s.dir ∧
    V1.newHead s = ⟨s.snake.headI.x + s.dir.x, s.snake.headI.y + s.dir.y⟩ ∧
    ((V1.tick r s).gameOver = false →
      (V1.tick r s).snake =
        V1.newHead s ::
          (if V1.eatsFood s then s.snake else s.snake.dropLast)) := by
  have hres : V1.resolvedDir s = s.dir := by
    unfold V1.resolvedDir; rw [hopp]; rfl
  refine ⟨?_, ?_, ?_⟩
  · rw [v1_tick_dir r hgo hne, hres]
  · unfold V1.newHead; rw [hres]
  · intro hterm
    by_cases hw : V1.hitsWall s
    · rw [v1_tick_wall r hgo hne hw] at hterm; simp at hterm
    by_cases hself : V1.newHead s ∈ s.snake
    · rw [v1_tick_self r hgo hne hw hself] at hterm; simp at hterm
    by_cases hate : V1.eatsFood s = true
    · obtain ⟨f, hf, heq⟩ := v1_eatsFood_iff.mp hate
      rw [v1_tick_eat r hgo hne hw hself hf heq, hate]
      simp
    · have hate0 : V1.eatsFood s = false := by simpa using hate
      rw [v1_tick_move r hgo hne hw hself hate0, hate0]
      simp [List.dropLast_cons_of_ne_nil hne]

theorem C4_witness :
    ((V1.tick 0 reverseMoveState).dir = reverseMoveState.dir ∧
      (V1.tick 0 reverseMoveState).gameOver = false) ∧
    (V1.tick 0 reverseMoveState).snake =
      V1.newHead reverseMoveState ::
        (if V1.eatsFood reverseMoveState then reverseMoveState.snake
         else reverseMoveState.snake.dropLast) := by
  have h := C4_reversal_ignored 0 reverseMoveState rfl (by decide) (by decide)
  exact ⟨⟨h.1, by decide⟩, h.2.2 (by decide)⟩

/-- C5 counterexample: in the spec's concrete scenario (grid 10×10, snake
`[(5,5),(4,5),(3,5),(2,5)]` head-first, moving right, food at `(6,5)`) the
post-advance snake claimed by C5, `[(6,5),(5,5),(4,5),(3,5)]`, is wrong: the
tail `(2,5)` is retained on an eating tick, so the snake has five cells. -/
theorem C5_counterexample :
    scenarioState.food = some ⟨6, 5⟩ ∧
    (V2.update 10 10 (fun _ => ⟨0, 0⟩) scenarioState).score = 1 ∧
    (V2.update 10 10 (fun _ => ⟨0, 0⟩) scenarioState).snake.reverse ≠
      [⟨6, 5⟩, ⟨5, 5⟩, ⟨4, 5⟩, ⟨3, 5⟩] ∧
    (V2.update 10 10 (fun _ => ⟨0, 0⟩) scenarioState).snake.reverse =
      [⟨6, 5⟩, ⟨5, 5⟩, ⟨4, 5⟩, ⟨3, 5⟩, ⟨2, 5⟩] := by
  refine ⟨rfl, by decide, by decide, by decide⟩

/-- C5 (amended): when the new head lands on the food cell (and the move
commits), the score increases by exactly 1, the tail is not removed, and the
relocated food (if present) lies in no cell of the post-move snake. In the
concrete 10×10 scenario the post-advance snake is
`[(6,5),(5,5),(4,5),(3,5),(2,5)]` (head first; the tail `(2,5)` is retained)
with score 1 and the new food, when present, off the snake. -/
theorem C5_eating_effects :
    (∀ (r : Nat) (s : V1.GState) (f : Cell), s.gameOver = false →
      s.snake ≠ [] → ¬ V1.hitsWall s → V1.newHead s ∉ s.snake →
      s.food = some f → V1.newHead s = f →
      (V1.tick r s).score = s.score + 1 ∧
      (V1.tick r s).snake = V1.newHead s :: s.snake ∧
      (∀ c, (V1.tick r s).food = some c → c ∉ (V1.tick r s).snake)) ∧
    (∀ picks : Nat → Cell,
      (V2.update 10 10 picks scenarioState).snake.reverse =
        [⟨6, 5⟩, ⟨5, 5⟩, ⟨4, 5⟩, ⟨3, 5⟩, ⟨2, 5⟩] ∧
      (V2.update 10 10 picks scenarioState).score = 1 ∧
      (∀ c, (V2.update 10 10 picks scenarioState).food = some c →
        c ∉ (V2.update 10 10 picks scenarioState).snake)) := by
  constructor
  · intro r s f hgo hne hw hself hf heq
    rw [v1_tick_eat r hgo hne hw hself hf heq]
    refine ⟨rfl, rfl, ?_⟩
    intro c hc
    exact v1_placeFood_not_mem hc
  · intro picks
    refine ⟨rfl, rfl, ?_⟩
    intro c hc
    exact v2_spawnFood_not_mem hc

theorem C5_witness :
    ((V1.tick 0 eatState).score = 1 ∧
      (V1.tick 0 eatState).snake =
        [⟨6, 5⟩, ⟨5, 5⟩, ⟨4, 5⟩, ⟨3, 5⟩, ⟨2, 5⟩]) ∧
    (V2.update 10 10 (fun _ => ⟨1, 1⟩) scenarioState).score = 1 := by
  have h := C5_eating_effects.1 0 eatState ⟨6, 5⟩ rfl (by decide) (by decide)
    (by decide) rfl (by decide)
  exact ⟨⟨h.1, h.2.1.trans (by decide)⟩,
    (C5_eating_effects.2 (fun _ => ⟨1, 1⟩)).2.1⟩

theorem v2_spawnFoodAux_first_free {picks : Nat → Cell}
    {occupied : List Cell} {i fuel : Nat} (h : picks i ∉ occupied) :
    V2.spawnFoodAux picks occupied i (fuel + 1) = some (picks i) := by
  unfold V2.spawnFoodAux
  rw [if_neg h]

/-- C6 counterexample: food placement does NOT always leave food absent only
when no free cell exists. With snake `[(0,0)]` the cell `(1,1)` is free (it
is among V1's free cells of the 30×30 grid), yet V2's `spawnFood` returns
`none` when all 10000 bounded random draws happen to hit the snake. -/
theorem C6_counterexample :
    ((⟨1, 1⟩ : Cell) ∈ V1.freeCells [⟨0, 0⟩] ∧
      V1.freeCells [⟨0, 0⟩] ≠ []) ∧
    V2.spawnFood (fun _ => ⟨0, 0⟩) [⟨0, 0⟩] = none := by
  refine ⟨⟨by decide, by decide⟩, ?_⟩
  exact v2_spawnFood_none_of_all_occupied (fun j => by decide)

/-- C6 (amended): V1's `placeFood` chooses among exactly the unoccupied grid
cells — food is absent iff no free cell exists, any returned cell is free,
and every free cell is a possible choice. V2's `spawnFood` only ever places
food on an unoccupied cell, but performs at most 10000 random tries and
leaves food absent whenever all tries hit the snake, which can happen even
when free cells exist. -/
theorem C6_food_placement :
    (∀ (r : Nat) (snake : List Cell),
      (V1.placeFood r snake = none ↔ V1.freeCells snake = []) ∧
      ∀ c, V1.placeFood r snake = some c → c ∈ V1.freeCells snake) ∧
    (∀ (snake : List Cell) (c : Cell), c ∈ V1.freeCells snake →
      ∃ r, V1.placeFood r snake = some c) ∧
    (∀ (picks : Nat → Cell) (snake : List Cell) (c : Cell),
      V2.spawnFood picks snake = some c → c ∉ snake) ∧
    (∀ (picks : Nat → Cell) (snake : List Cell),
      (∀ j, picks j ∈ snake) → V2.spawnFood picks snake = none) := by
  refine ⟨?_, ?_, ?_, ?_⟩
  · intro r snake
    exact ⟨v1_placeFood_eq_none_iff r snake, fun c hc => v1_placeFood_mem hc⟩
  · intro snake c hc
    exact v1_exists_placeFood hc
  · intro picks snake c hc
    exact v2_spawnFood_not_mem hc
  · intro picks snake hall
    exact v2_spawnFood_none_of_all_occupied hall

set_option maxRecDepth 8000 in
theorem C6_witness :
    (V1.placeFood 0 [(⟨0, 0⟩ : Cell)] = none ↔
      V1.freeCells [(⟨0, 0⟩ : Cell)] = []) ∧
    ((⟨0, 1⟩ : Cell) ∈ V1.freeCells [(⟨0, 0⟩ : Cell)]) ∧
    (∃ r, V1.placeFood r [(⟨0, 0⟩ : Cell)] = some ⟨0, 1⟩) ∧
    ((⟨1, 1⟩ : Cell) ∉ ([⟨0, 0⟩] : List Cell)) ∧
    V2.spawnFood (fun _ => ⟨0, 0⟩) [(⟨0, 0⟩ : Cell)] = none := by
  refine ⟨(C6_food_placement.1 0 [⟨0, 0⟩]).1,
    (C6_food_placement.1 0 [⟨0, 0⟩]).2 ⟨0, 1⟩ (by decide),
    C6_food_placement.2.1 [⟨0, 0⟩] ⟨0, 1⟩ (by decide),
    C6_food_placement.2.2.1 (fun _ => ⟨1, 1⟩) [⟨0, 0⟩] ⟨1, 1⟩ ?_,
    C6_food_placement.2.2.2 (fun _ => ⟨0, 0⟩) [⟨0, 0⟩] ?_⟩
  · exact v2_spawnFoodAux_first_free (by decide)
  · intro j
    show (⟨0, 0⟩ : Cell) ∈ [(⟨0, 0⟩ : Cell)]
    decide

/-- C7 counterexample: the first implementation's tick interval does NOT
decrease at score milestones. At the milestone score 5 (the claim's "every
5 points" example) V1's interval is still the constant `TICK_MS` = 100 ms,
exactly what it was at score 4 and at score 0: no milestone decrement and
no distinct floor exist in V1. -/
theorem C7_counterexample :
    V1.tickIntervalOf 5 = V1.tickIntervalOf 4 ∧
    V1.tickIntervalOf 5 = V1.tickIntervalOf 0 ∧
    V1.tickIntervalOf 5 = 100 ∧
    ¬ V1.tickIntervalOf 5 < V1.tickIntervalOf 4 := by
  refine ⟨rfl, rfl, rfl, by decide⟩

/-- C7 (amended): in both variants the tick interval is a deterministic,
path-independent, monotonically non-increasing function of the score alone,
but only V2 ramps: V1's interval is the constant `TICK_MS` = 100 at every
score (it never decreases), while V2's interval equals `speedOf score` on
every reachable state, where `speedOf` starts at `BASE_SPEED`, is
monotonically non-increasing with a floor of 45 ms, and changes only by the
milestone rule `speedStep` (every 5 points, minus 8 ms, clamped at 45). -/
theorem C7_speed_ramp :
    (∀ n : Nat, V1.tickIntervalOf n = V1.TICK_MS) ∧
    (∀ s : V2.G2, V2.Reachable2 s → s.tickInterval = V2.speedOf s.score) ∧
    (∀ a b : Nat, a ≤ b → V2.speedOf b ≤ V2.speedOf a) ∧
    (∀ n : Nat, 45 ≤ V2.speedOf n) ∧
    V2.speedOf 0 = V2.BASE_SPEED ∧
    (∀ n : Nat, V2.speedOf (n + 1) = V2.speedStep (n + 1) (V2.speedOf n)) := by
  refine ⟨fun n => rfl, ?_, ?_, ?_, rfl, fun n => rfl⟩
  · intro s h
    exact v2_reachable_interval h
  · intro a b h
    exact v2_speedOf_antitone h
  · intro n
    exact v2_speedOf_floor n

theorem C7_witness :
    V1.tickIntervalOf 5 = V1.TICK_MS ∧
    (V2.resetGame 10 10 (fun _ => ⟨0, 0⟩)).tickInterval =
      V2.speedOf (V2.resetGame 10 10 (fun _ => ⟨0, 0⟩)).score ∧
    V2.speedOf 7 ≤ V2.speedOf 3 ∧
    45 ≤ V2.speedOf 12 :=
  ⟨C7_speed_ramp.1 5,
   C7_speed_ramp.2.1 _ (V2.Reachable2.reset 10 10 (fun _ => ⟨0, 0⟩)),
   C7_speed_ramp.2.2.1 3 7 (by decide),
   C7_speed_ramp.2.2.2.1 12⟩

/-- C8: the terminal state is absorbing: V1's `tick` is a no-op once
`gameOver` is set, V2's keydown listener ignores all input once `isGameOver`
is set, and the only way out is `restart`, which performs the full state
reinitialization of `resetGame` (fresh snake, score 0, base speed, game not
over). -/
theorem C8_terminal_absorbing :
    (∀ (r : Nat) (s : V1.GState), s.gameOver = true → V1.tick r s = s) ∧
    (∀ (nd : Cell) (s : V2.G2), s.isGameOver = true → V2.keydown nd s = s) ∧
    (∀ (cols rows : Int) (picks : Nat → Cell),
      V2.restart cols rows picks = V2.resetGame cols rows picks ∧
      (V2.restart cols rows picks).isGameOver = false ∧
      (V2.restart cols rows picks).score = 0 ∧
      (V2.restart cols rows picks).snake = V2.initSnake2 cols rows ∧
      (V2.restart cols rows picks).tickInterval = V2.BASE_SPEED) := by
  refine ⟨?_, ?_, ?_⟩
  · intro r s h
    exact v1_tick_gameOver r h
  · intro nd s h
    simp [V2.keydown, h]
  · intro cols rows picks
    exact ⟨rfl, rfl, rfl, rfl, rfl⟩

theorem C8_witness :
    V1.tick 0 doneState = doneState ∧
    V2.keydown ⟨0, -1⟩ doneState2 = doneState2 ∧
    (V2.restart 10 10 (fun _ => ⟨0, 0⟩)).isGameOver = false :=
  ⟨C8_terminal_absorbing.1 0 doneState rfl,
   C8_terminal_absorbing.2.1 ⟨0, -1⟩ doneState2 rfl,
   (C8_terminal_absorbing.2.2 10 10 (fun _ => ⟨0, 0⟩)).2.1⟩

/-- C9: when the new head equals the cell currently occupied by the snake's
tail (and the head stays on the grid), the tick terminates the game with the
snake unchanged — even though the tail cell would have been vacated by a
normal non-eating move (the would-have-been moved snake has no duplicate),
because the self-collision check runs against the full body before the tail
is removed. -/
theorem C9_tail_collision_terminal (r : Nat) (s : V1.GState)
    (hgo : s.gameOver = false) (hne : s.snake ≠ [])
    (hw : ¬ V1.hitsWall s)
    (htail : V1.newHead s = s.snake.getLast hne) :
    ((V1.tick r s).gameOver = true ∧ (V1.tick r s).snake = s.snake) ∧
    (s.snake.Nodup → (V1.newHead s :: s.snake.dropLast).Nodup) := by
  have hself : V1.newHead s ∈ s.snake := by
    rw [htail]
    exact List.getLast_mem hne
  constructor
  · rw [v1_tick_self r hgo hne hw hself]
    exact ⟨rfl, rfl⟩
  · intro hnd
    rw [← List.dropLast_append_getLast hne] at hnd
    obtain ⟨h1, h2, hdisj⟩ := List.nodup_append.mp hnd
    rw [List.nodup_cons, htail]
    refine ⟨fun hmem => ?_, h1⟩
    exact hdisj hmem (List.mem_singleton.mpr rfl)

theorem C9_witness :
    ((V1.tick 0 tailChaseState).gameOver = true ∧
      (V1.tick 0 tailChaseState).snake = tailChaseState.snake) ∧
    (V1.newHead tailChaseState :: tailChaseState.snake.dropLast).Nodup := by
  have h := C9_tail_collision_terminal 0 tailChaseState rfl (by decide)
    (by decide) (by decide)
  exact ⟨h.1, h.2 (by decide)⟩

/-- C10: in every reachable non-terminal V1 state the snake length equals
the initial length 4 plus the current score; `resetGame` establishes length
4 with score 0. -/
theorem C10_length_is_four_plus_score :
    (∀ s : V1.GState, V1.Reachable s → s.gameOver = false →
      s.snake.length = 4 + s.score) ∧
    (∀ r : Nat, (V1.resetGame r).snake.length = 4 ∧
      (V1.resetGame r).score = 0) := by
  refine ⟨?_, fun r => ⟨rfl, rfl⟩⟩
  intro s h hgo
  exact v1_reachable_length h hgo

theorem C10_witness :
    (V1.resetGame 5).snake.length = 4 + (V1.resetGame 5).score ∧
    (V1.resetGame 5).score = 0 :=
  ⟨C10_length_is_four_plus_score.1 (V1.resetGame 5)
      (V1.Reachable.reset 5) rfl,
   (C10_length_is_four_plus_score.2 5).2⟩
